import Mathlib

/-!
Shallow embedding of libavcodec/mediacodecenc.c (the Android MediaCodec
encoder glue of this repository).

The file is self-contained: the data model mirrors the fields of
`MediaCodecEncContext`, `AVPacket`, `AVFrame` and `AVCodecContext` that the
source reads or writes, and the two phases of `ff_mediacodec_enc_encode`
(the input-submission loop and the single output-drain attempt) are
translated statement by statement.  The external collaborators (the
`FFAMediaCodec` wrapper and the allocation primitives) are modelled by an
explicit per-call environment that records the result each external call
would return; the embedded functions consume that environment in exactly
the order the C code performs the calls, and additionally record the
externally visible effects (successful input submissions, output-buffer
release calls) that the verified claims talk about.

The timestamp conversions of lines 242 and 373 are computed by the source
in IEEE double precision.  This embedding idealizes them over exact
unbounded integers (the `(int64_t)` conversion as truncation toward zero,
C `round` as round-half-away-from-zero) and does not model IEEE rounding
or int64 overflow; the idealized converters are therefore used only for
structural facts (which timestamp is computed at which point and assigned
to which packet fields), never to establish numerical accuracy bounds of
the double arithmetic itself.
-/

/-- `AVERROR_EXTERNAL` = FFERRTAG of the characters E, X, T, space. -/
def AVERROR_EXTERNAL : Int := -542398533

/-- `AVERROR(ENOMEM)` with the Linux value of ENOMEM. -/
def AVERROR_ENOMEM : Int := -12

/-- Modelled from the spec: the wrapper's recognized "try again later"
dequeue status code (mediacodec_wrapper is not among the analyzed sources);
the three recognized codes are distinct negative sentinels, as in the NDK. -/
def INFO_TRY_AGAIN_LATER : Int := -1

/-- Modelled from the spec: the recognized "output format changed" status. -/
def INFO_OUTPUT_FORMAT_CHANGED : Int := -2

/-- Modelled from the spec: the recognized "output buffers changed" status. -/
def INFO_OUTPUT_BUFFERS_CHANGED : Int := -3

/-- `ff_AMediaCodec_infoTryAgainLater`. -/
def infoTryAgainLater (idx : Int) : Bool := idx == INFO_TRY_AGAIN_LATER

/-- `ff_AMediaCodec_infoOutputFormatChanged`. -/
def infoOutputFormatChanged (idx : Int) : Bool := idx == INFO_OUTPUT_FORMAT_CHANGED

/-- `ff_AMediaCodec_infoOutputBuffersChanged`. -/
def infoOutputBuffersChanged (idx : Int) : Bool := idx == INFO_OUTPUT_BUFFERS_CHANGED

/-- `AV_PIX_FMT_YUV420P` from libavutil/pixfmt.h. -/
def AV_PIX_FMT_YUV420P : Int := 0

/-- `AV_PIX_FMT_NV12` from libavutil/pixfmt.h. -/
def AV_PIX_FMT_NV12 : Int := 23

/-- `COLOR_FormatYUV420Planar` (mediacodecenc.c line 44). -/
def COLOR_FormatYUV420Planar : Int := 0x13

/-- `COLOR_FormatYUV420SemiPlanar` (mediacodecenc.c line 45). -/
def COLOR_FormatYUV420SemiPlanar : Int := 0x15

/-- The `color_formats` table (lines 48-58), sentinel `{ 0 }` entry included:
`FF_ARRAY_ELEMS(color_formats)` counts it, and the lookup loop visits it. -/
def color_formats : List (Int × Int) :=
  [(AV_PIX_FMT_YUV420P, COLOR_FormatYUV420Planar),
   (AV_PIX_FMT_NV12, COLOR_FormatYUV420SemiPlanar),
   (0, 0)]

/-- `mcdec_map_pixel_format` (lines 60-77): scan the table in order and
return the first matching entry's color format; if no entry matches, log
and return `ret`, which is initialized to 0 and never changed. -/
def mcdec_map_pixel_format (pix_fmt : Int) : Int :=
  match color_formats.find? (fun p => p.1 == pix_fmt) with
  | some p => p.2
  | none => 0

/-- Idealization of the input-side timestamp conversion (line 242):
`(int64_t)(frame->pts * av_q2d(avctx->time_base) * 1000 * 1000)`, with the
double product replaced by the exact unbounded-integer product and the
int64 conversion by truncation toward zero.  The source's IEEE rounding
and int64 range are not modelled, so this definition only identifies the
timestamp the submission carries, not the double computation's accuracy. -/
def ptsToUs (pts num den : Int) : Int := Int.tdiv (pts * num * 1000000) den

/-- Round-half-away-from-zero of the exact quotient `a / b`, `0 < b`:
the idealization of C `round` on an exact argument. -/
def roundDiv (a b : Int) : Int :=
  if 0 ≤ a then (2 * a + b) / (2 * b) else -((2 * (-a) + b) / (2 * b))

/-- Idealization of the output-side timestamp conversion (line 373):
`round(info.presentationTimeUs / av_q2d(avctx->time_base) / 1000 / 1000)`,
with the double divisions replaced by the exact rational quotient
`us * den / (num * 10^6)` and `round` by `roundDiv`.  As with `ptsToUs`,
IEEE rounding is not modelled. -/
def usToPts (us num den : Int) : Int := roundDiv (us * den) (num * 1000000)

/-- The fields of `MediaCodecEncContext` that mediacodecenc.c reads or
writes.  The context is allocated zero-initialized by libavcodec, and
`ff_mediacodec_enc_init` additionally sets `first_buffer = 0`. -/
structure MediaCodecEncContext where
  codec : Option Nat
  format : Option Nat
  extradata : Option (List Nat)
  extradata_size : Int
  first_buffer : Nat
  queued_buffer_nb : Int
  queued_buffer_max : Int
  dequeued_buffer_nb : Int
  flushing : Bool
  width : Nat
  height : Nat
  color_format : Int
deriving DecidableEq

/-- The fields of `AVCodecContext` the encode path uses.  `globalHeader`
stands for `avctx->flags & AV_CODEC_FLAG_GLOBAL_HEADER`. -/
structure AVCodecContext where
  time_base_num : Int
  time_base_den : Int
  globalHeader : Bool
  extradata : Option (List Nat)
  extradata_size : Int
deriving DecidableEq

/-- A source frame: the two NV12 plane byte arrays the code memcpys from,
and the presentation timestamp. -/
structure AVFrame where
  data0 : List Nat
  data1 : List Nat
  pts : Int
deriving DecidableEq

/-- The packet fields the encode path writes.  `pts = none` stands for
`AV_NOPTS_VALUE`; `flagKey` for `AV_PKT_FLAG_KEY`. -/
structure AVPacket where
  data : List Nat
  size : Int
  pts : Option Int
  dts : Option Int
  flagKey : Bool
deriving DecidableEq

/-- `FFAMediaCodecBufferInfo`, with the flag word split into the three
flag bits the code tests. -/
structure BufFlags where
  codecConfig : Bool
  keyFrame : Bool
  endOfStream : Bool
deriving DecidableEq

structure FFAMediaCodecBufferInfo where
  offset : Int
  size : Int
  presentationTimeUs : Int
  flags : BufFlags
deriving DecidableEq

/-- Environment of one iteration of the input loop: the results the three
external calls of that iteration would return.  `inputBuf = some cap`
models `ff_AMediaCodec_getInputBuffer` returning a non-NULL region of
capacity `cap`; `none` models a NULL result. -/
structure InIterEnv where
  deqIndex : Int
  inputBuf : Option Nat
  queueStatus : Int
deriving DecidableEq

/-- Environment of the single output-drain attempt: the results of the
external calls the drain may perform, in source order. -/
structure OutEnv where
  deqIndex : Int
  info : FFAMediaCodecBufferInfo
  outputBuf : Option (List Nat)
  allocPacketStatus : Int
  extradataAlloc : Bool
  avctxExtradataAlloc : Bool
  releaseStatus : Int
  formatDeleteStatus : Int
  newFormat : Option Nat
  formatToString : Bool
deriving DecidableEq

/-- Record of one successful `ff_AMediaCodec_queueInputBuffer` call:
the index, the `offset` value around the iteration, the buffer capacity,
the byte count passed to the queue call (`size` after the `FFMIN`), the
bytes the two `memcpy` calls wrote, the submitted timestamp, and whether
the end-of-stream flag was passed. -/
structure SubmitRec where
  index : Int
  offsetBefore : Int
  offsetAfter : Int
  capacity : Nat
  declaredSize : Int
  payload : List Nat
  ptsUs : Int
  eos : Bool
deriving DecidableEq

/-- How the input loop ended: `done` models reaching line 277 (`break` or
the loop condition turning false), `fail` an early `return` with an error,
`fuelOut` exhaustion of the modelled environment while the C loop would
have kept iterating (no corresponding C execution; used only to keep the
embedding total). -/
inductive InExit where
  | done
  | fail (code : Int)
  | fuelOut
deriving DecidableEq

structure InResult where
  exit : InExit
  offset : Int
  s : MediaCodecEncContext
  requests : Nat
  trace : List SubmitRec
deriving DecidableEq

/-- The bytes the two fixed-size `memcpy` calls of lines 237-238 read:
`width*height` bytes of plane 0 and `width*height/2` bytes of plane 1,
independent of the declared buffer size. -/
def framePayload (s : MediaCodecEncContext) (frame : AVFrame) : List Nat :=
  frame.data0.take (s.width * s.height) ++ frame.data1.take (s.width * s.height / 2)

/-- The input-submission loop of `ff_mediacodec_enc_encode`
(lines 196-275), one `InIterEnv` consumed per iteration. -/
def inputLoop (avctx : AVCodecContext) (frame : AVFrame) (frame_size : Int) :
    List InIterEnv → MediaCodecEncContext → Int → InResult
  | [], s, offset =>
    if offset < frame_size ∨ frame_size = 0 then
      { exit := .fuelOut, offset := offset, s := s, requests := 0, trace := [] }
    else
      { exit := .done, offset := offset, s := s, requests := 0, trace := [] }
  | e :: rest, s, offset =>
    if offset < frame_size ∨ frame_size = 0 then
      if infoTryAgainLater e.deqIndex then
        { exit := .done, offset := offset, s := s, requests := 1, trace := [] }
      else if e.deqIndex < 0 then
        { exit := .fail AVERROR_EXTERNAL, offset := offset, s := s, requests := 1, trace := [] }
      else
        match e.inputBuf with
        | none =>
          { exit := .fail AVERROR_EXTERNAL, offset := offset, s := s, requests := 1, trace := [] }
        | some cap =>
          if frame_size ≠ 0 then
            let sz := min (frame_size - offset) (cap : Int)
            let offset' := offset + sz
            let pts_us := ptsToUs frame.pts avctx.time_base_num avctx.time_base_den
            if e.queueStatus < 0 then
              { exit := .fail AVERROR_EXTERNAL, offset := offset', s := s,
                requests := 1, trace := [] }
            else
              let s' := { s with
                queued_buffer_nb := s.queued_buffer_nb + 1,
                queued_buffer_max := max s.queued_buffer_max (s.queued_buffer_nb + 1) }
              let r := inputLoop avctx frame frame_size rest s' offset'
              { exit := r.exit, offset := r.offset, s := r.s, requests := r.requests + 1,
                trace := { index := e.deqIndex, offsetBefore := offset, offsetAfter := offset',
                           capacity := cap, declaredSize := sz,
                           payload := framePayload s frame, ptsUs := pts_us,
                           eos := false } :: r.trace }
          else
            if e.queueStatus < 0 then
              { exit := .fail AVERROR_EXTERNAL, offset := offset, s := s,
                requests := 1, trace := [] }
            else
              { exit := .done, offset := offset, s := s, requests := 1,
                trace := [{ index := e.deqIndex, offsetBefore := offset,
                            offsetAfter := offset, capacity := cap, declaredSize := 0,
                            payload := [], ptsUs := 0, eos := true }] }
    else
      { exit := .done, offset := offset, s := s, requests := 0, trace := [] }

/-- `ff_alloc_packet2(avctx, pkt, info.size, info.size)` on success: a
fresh packet of `size` zero bytes with unset timestamps and flags. -/
def allocPacket (sz : Int) : AVPacket :=
  { data := List.replicate sz.toNat 0, size := sz, pts := none, dts := none, flagKey := false }

/-- Result of the output-drain phase. `releases` counts the
`ff_AMediaCodec_releaseOutputBuffer` calls made; `realPayload` records that
the positive-size non-configuration payload branch (lines 349-386) ran;
`configCaptured` that the configuration-capture branch stored extradata;
`prefixed` that the captured extradata bytes were prepended to the packet
payload (line 352). -/
structure DrainResult where
  ret : Int
  s : MediaCodecEncContext
  avctx : AVCodecContext
  pkt : AVPacket
  gotPacket : Int
  releases : Nat
  realPayload : Bool
  configCaptured : Bool
  prefixed : Bool
deriving DecidableEq

/-- Configuration-capture branch (lines 315-347): allocate and fill
`s->extradata`, release the output buffer, optionally copy the bytes to
`avctx->extradata` in global-header mode, return `offset`.  An extradata
allocation failure returns before the release call. -/
def drainConfigBranch (e : OutEnv) (avctx : AVCodecContext) (s : MediaCodecEncContext)
    (pkt : AVPacket) (gp offset : Int) (data : List Nat) : DrainResult :=
  if e.extradataAlloc then
    let s := { s with extradata := some (data.take e.info.size.toNat),
                      extradata_size := e.info.size }
    if e.releaseStatus < 0 then
      { ret := AVERROR_EXTERNAL, s := s, avctx := avctx, pkt := pkt,
        gotPacket := gp, releases := 1, realPayload := false,
        configCaptured := true, prefixed := false }
    else if avctx.globalHeader then
      if e.avctxExtradataAlloc then
        { ret := offset, s := s,
          avctx := { avctx with extradata := some (data.take e.info.size.toNat),
                                extradata_size := e.info.size },
          pkt := pkt, gotPacket := gp, releases := 1, realPayload := false,
          configCaptured := true, prefixed := false }
      else
        { ret := AVERROR_ENOMEM, s := s, avctx := avctx, pkt := pkt,
          gotPacket := gp, releases := 1, realPayload := false,
          configCaptured := true, prefixed := false }
    else
      { ret := offset, s := s, avctx := avctx, pkt := pkt, gotPacket := gp,
        releases := 1, realPayload := false, configCaptured := true,
        prefixed := false }
  else
    { ret := AVERROR_EXTERNAL, s := s, avctx := avctx, pkt := pkt,
      gotPacket := gp, releases := 0, realPayload := false,
      configCaptured := false, prefixed := false }

/-- Real-payload branch (lines 349-397): post-increment `first_buffer`,
prepend the cached extradata on the first payload unless in global-header
mode, convert and assign the timestamps, mark the key flag, set
`*got_packet = 1`, update the queue counters, release the buffer. -/
def drainPayloadBranch (e : OutEnv) (avctx : AVCodecContext) (s : MediaCodecEncContext)
    (pkt : AVPacket) (offset : Int) (data : List Nat) : DrainResult :=
  let fb := s.first_buffer
  let payload := data.take e.info.size.toNat
  let header := (s.extradata.getD []).take s.extradata_size.toNat
  let prefixing := fb == 0 && !avctx.globalHeader
  let pkt :=
    if prefixing then
      { pkt with data := header ++ payload, size := e.info.size + s.extradata_size }
    else
      { pkt with data := payload, size := e.info.size }
  let pkt_pts := usToPts e.info.presentationTimeUs avctx.time_base_num avctx.time_base_den
  let pkt := { pkt with
    flagKey := pkt.flagKey || e.info.flags.keyFrame,
    pts := some pkt_pts, dts := some pkt_pts }
  let s := { s with first_buffer := fb + 1,
                    queued_buffer_nb := s.queued_buffer_nb - 1,
                    dequeued_buffer_nb := s.dequeued_buffer_nb + 1 }
  if e.releaseStatus < 0 then
    { ret := AVERROR_EXTERNAL, s := s, avctx := avctx, pkt := pkt,
      gotPacket := 1, releases := 1, realPayload := true,
      configCaptured := false, prefixed := prefixing }
  else
    { ret := offset, s := s, avctx := avctx, pkt := pkt, gotPacket := 1,
      releases := 1, realPayload := true, configCaptured := false,
      prefixed := prefixing }

/-- Zero-size payload branch (lines 388-397): empty packet, unset
timestamp, release the buffer, not an error. -/
def drainEmptyBranch (e : OutEnv) (avctx : AVCodecContext) (s : MediaCodecEncContext)
    (pkt : AVPacket) (gp offset : Int) : DrainResult :=
  let pkt := { pkt with size := 0, pts := none }
  if e.releaseStatus < 0 then
    { ret := AVERROR_EXTERNAL, s := s, avctx := avctx, pkt := pkt,
      gotPacket := gp, releases := 1, realPayload := false,
      configCaptured := false, prefixed := false }
  else
    { ret := offset, s := s, avctx := avctx, pkt := pkt, gotPacket := gp,
      releases := 1, realPayload := false, configCaptured := false,
      prefixed := false }

/-- Valid-index branch (lines 297-397): resolve the output buffer, allocate
the packet, then dispatch on size and the configuration flag. -/
def drainValidBranch (e : OutEnv) (avctx : AVCodecContext) (s : MediaCodecEncContext)
    (pkt : AVPacket) (gp offset : Int) : DrainResult :=
  match e.outputBuf with
  | none =>
    { ret := AVERROR_EXTERNAL, s := s, avctx := avctx, pkt := pkt, gotPacket := gp,
      releases := 0, realPayload := false, configCaptured := false, prefixed := false }
  | some data =>
    if e.allocPacketStatus ≠ 0 then
      { ret := e.allocPacketStatus, s := s, avctx := avctx, pkt := pkt, gotPacket := gp,
        releases := 0, realPayload := false, configCaptured := false, prefixed := false }
    else
      if 0 < e.info.size then
        if e.info.flags.codecConfig then
          drainConfigBranch e avctx s (allocPacket e.info.size) gp offset data
        else
          drainPayloadBranch e avctx s (allocPacket e.info.size) offset data
      else
        drainEmptyBranch e avctx s (allocPacket e.info.size) gp offset

/-- Format-changed branch (lines 399-424): delete the previous cached
format (status only logged), fetch and stringify the new one, parse it
(`mediacodec_enc_parse_format` always returns 0). -/
def drainFormatBranch (e : OutEnv) (avctx : AVCodecContext) (s : MediaCodecEncContext)
    (pkt : AVPacket) (gp offset : Int) : DrainResult :=
  match e.newFormat with
  | none =>
    { ret := AVERROR_EXTERNAL, s := { s with format := none }, avctx := avctx,
      pkt := pkt, gotPacket := gp, releases := 0, realPayload := false,
      configCaptured := false, prefixed := false }
  | some f =>
    if e.formatToString then
      { ret := offset, s := { s with format := some f }, avctx := avctx, pkt := pkt,
        gotPacket := gp, releases := 0, realPayload := false,
        configCaptured := false, prefixed := false }
    else
      { ret := AVERROR_EXTERNAL, s := { s with format := some f }, avctx := avctx,
        pkt := pkt, gotPacket := gp, releases := 0, realPayload := false,
        configCaptured := false, prefixed := false }

/-- The output-drain phase of `ff_mediacodec_enc_encode` (lines 277-444):
the if/else-if chain on the dequeue result. -/
def outputDrain (e : OutEnv) (avctx : AVCodecContext) (s : MediaCodecEncContext)
    (pkt : AVPacket) (gp offset : Int) : DrainResult :=
  if 0 ≤ e.deqIndex then
    drainValidBranch e avctx s pkt gp offset
  else if infoOutputFormatChanged e.deqIndex then
    drainFormatBranch e avctx s pkt gp offset
  else if infoOutputBuffersChanged e.deqIndex then
    { ret := offset, s := s, avctx := avctx, pkt := pkt, gotPacket := gp,
      releases := 0, realPayload := false, configCaptured := false, prefixed := false }
  else if infoTryAgainLater e.deqIndex then
    { ret := offset, s := s, avctx := avctx, pkt := pkt, gotPacket := gp,
      releases := 0, realPayload := false, configCaptured := false, prefixed := false }
  else
    { ret := AVERROR_EXTERNAL, s := s, avctx := avctx, pkt := pkt, gotPacket := gp,
      releases := 0, realPayload := false, configCaptured := false, prefixed := false }

/-- Per-call environment: one entry per input-loop iteration plus the
single output-drain environment. -/
structure CallEnv where
  inputEnv : List InIterEnv
  outEnv : OutEnv
deriving DecidableEq

/-- Everything one `ff_mediacodec_enc_encode` call produced. -/
structure EncodeResult where
  ret : Int
  s : MediaCodecEncContext
  avctx : AVCodecContext
  pkt : AVPacket
  gotPacket : Int
  inExit : InExit
  inRequests : Nat
  submitTrace : List SubmitRec
  releases : Nat
  realPayload : Bool
  configCaptured : Bool
  prefixed : Bool
deriving DecidableEq

/-- `ff_mediacodec_enc_encode` (lines 175-445): the input loop followed,
unless the loop returned early with an error, by the single output-drain
attempt.  `gp` is the value stored in `*got_packet` by the caller before
the call. -/
def ff_mediacodec_enc_encode (env : CallEnv) (avctx : AVCodecContext)
    (s : MediaCodecEncContext) (pkt : AVPacket) (frame : AVFrame)
    (gp frame_size : Int) : EncodeResult :=
  let ir := inputLoop avctx frame frame_size env.inputEnv s 0
  match ir.exit with
  | .fail code =>
    { ret := code, s := ir.s, avctx := avctx, pkt := pkt, gotPacket := gp,
      inExit := ir.exit, inRequests := ir.requests, submitTrace := ir.trace,
      releases := 0, realPayload := false, configCaptured := false, prefixed := false }
  | .fuelOut =>
    { ret := ir.offset, s := ir.s, avctx := avctx, pkt := pkt, gotPacket := gp,
      inExit := ir.exit, inRequests := ir.requests, submitTrace := ir.trace,
      releases := 0, realPayload := false, configCaptured := false, prefixed := false }
  | .done =>
    let d := outputDrain env.outEnv avctx ir.s pkt gp ir.offset
    { ret := d.ret, s := d.s, avctx := d.avctx, pkt := d.pkt, gotPacket := d.gotPacket,
      inExit := .done, inRequests := ir.requests, submitTrace := ir.trace,
      releases := d.releases, realPayload := d.realPayload,
      configCaptured := d.configCaptured, prefixed := d.prefixed }

/-- `ff_mediacodec_enc_close` (lines 447-455): release the handle if
present, clear it, return 0. -/
def ff_mediacodec_enc_close (s : MediaCodecEncContext) : MediaCodecEncContext × Int :=
  if s.codec.isSome then ({ s with codec := none }, 0) else (s, 0)

/-- One encode invocation of a multi-call session trace: its environment,
frame, declared frame size, and the caller-side packet and `*got_packet`
values before the call. -/
structure CallSpec where
  env : CallEnv
  frame : AVFrame
  frame_size : Int
  pkt0 : AVPacket
  gp0 : Int
deriving DecidableEq

/-- A sequence of encode calls on one session, threading the session state
and the codec context through. -/
def runCalls : AVCodecContext → MediaCodecEncContext → List CallSpec →
    AVCodecContext × MediaCodecEncContext × List EncodeResult
  | avctx, _s, [] => (avctx, _s, [])
  | avctx, s, c :: cs =>
    let r := ff_mediacodec_enc_encode c.env avctx s c.pkt0 c.frame c.gp0 c.frame_size
    let t := runCalls r.avctx r.s cs
    (t.1, t.2.1, r :: t.2.2)

/-- Number of calls in a trace that prepended the captured extradata. -/
def prefixedCount (outs : List EncodeResult) : Nat :=
  (outs.filter (fun r => r.prefixed)).length

/-- Number of calls in a trace that retrieved a real (positive-size,
non-configuration) payload. -/
def payloadCount (outs : List EncodeResult) : Nat :=
  (outs.filter (fun r => r.realPayload)).length

/-- Number of successful frame-data (non-end-of-stream) input submissions
in a trace. -/
def frameSubmitCount (outs : List EncodeResult) : Nat :=
  (outs.map (fun r => (r.submitTrace.filter (fun t => !t.eos)).length)).sum

/-- Number of successful input submissions of any kind (end-of-stream
included) in a trace. -/
def submitCount (outs : List EncodeResult) : Nat :=
  (outs.map (fun r => r.submitTrace.length)).sum

/-- The five-way classification of a `dequeueOutputBuffer` result, in the
priority order of the source's if/else-if chain (lines 297, 399, 426, 429,
438). -/
inductive OutputOutcome where
  | validIndex
  | formatChanged
  | buffersChanged
  | tryAgain
  | otherNegative
deriving DecidableEq

def classifyOutputIndex (idx : Int) : OutputOutcome :=
  if 0 ≤ idx then .validIndex
  else if infoOutputFormatChanged idx then .formatChanged
  else if infoOutputBuffersChanged idx then .buffersChanged
  else if infoTryAgainLater idx then .tryAgain
  else .otherNegative

/-! Concrete fixtures used by the counterexample and witness theorems:
a freshly initialized 2x2 NV12 session (the context is zero-initialized
by libavcodec and `ff_mediacodec_enc_init` sets `first_buffer = 0`),
a 1/25 time base, and small concrete environments. -/

def testCtx : MediaCodecEncContext :=
  { codec := some 1, format := none, extradata := none, extradata_size := 0,
    first_buffer := 0, queued_buffer_nb := 0, queued_buffer_max := 0,
    dequeued_buffer_nb := 0, flushing := false, width := 2, height := 2,
    color_format := COLOR_FormatYUV420SemiPlanar }

def testAvctx : AVCodecContext :=
  { time_base_num := 1, time_base_den := 25, globalHeader := false,
    extradata := none, extradata_size := 0 }

def testFrame : AVFrame := { data0 := [1, 2, 3, 4], data1 := [5, 6], pts := 7 }

def testPkt : AVPacket :=
  { data := [], size := 0, pts := none, dts := none, flagKey := false }

def emptyInfo : FFAMediaCodecBufferInfo :=
  { offset := 0, size := 0, presentationTimeUs := 0,
    flags := { codecConfig := false, keyFrame := false, endOfStream := false } }

/-- Output environment: `dequeueOutputBuffer` times out. -/
def outTryAgain : OutEnv :=
  { deqIndex := INFO_TRY_AGAIN_LATER, info := emptyInfo, outputBuf := none,
    allocPacketStatus := 0, extradataAlloc := true, avctxExtradataAlloc := true,
    releaseStatus := 0, formatDeleteStatus := 0, newFormat := none,
    formatToString := true }

/-- Output environment: a 5-byte real payload is dequeued at index 0 but
`ff_alloc_packet2` fails with `AVERROR(ENOMEM)`. -/
def outAllocFail : OutEnv :=
  { deqIndex := 0,
    info := { offset := 0, size := 5, presentationTimeUs := 280000,
              flags := { codecConfig := false, keyFrame := false, endOfStream := false } },
    outputBuf := some [9, 9, 9, 9, 9], allocPacketStatus := AVERROR_ENOMEM,
    extradataAlloc := true, avctxExtradataAlloc := true, releaseStatus := 0,
    formatDeleteStatus := 0, newFormat := none, formatToString := true }

/-- Output environment: a 2-byte configuration buffer is dequeued but the
`av_mallocz` for `s->extradata` fails. -/
def outExtraAllocFail : OutEnv :=
  { deqIndex := 0,
    info := { offset := 0, size := 2, presentationTimeUs := 0,
              flags := { codecConfig := true, keyFrame := false, endOfStream := false } },
    outputBuf := some [77, 88], allocPacketStatus := 0,
    extradataAlloc := false, avctxExtradataAlloc := true, releaseStatus := 0,
    formatDeleteStatus := 0, newFormat := none, formatToString := true }

/-- Output environment: format-changed status, but `getOutputFormat`
returns NULL. -/
def outFmtFail : OutEnv :=
  { outTryAgain with deqIndex := INFO_OUTPUT_FORMAT_CHANGED, newFormat := none }

/-- Output environment: an unrecognized negative dequeue status. -/
def outOtherNeg : OutEnv := { outTryAgain with deqIndex := -7 }

/-- Output environment: a 2-byte configuration buffer, all calls succeed. -/
def outConfig : OutEnv :=
  { deqIndex := 0,
    info := { offset := 0, size := 2, presentationTimeUs := 0,
              flags := { codecConfig := true, keyFrame := false, endOfStream := false } },
    outputBuf := some [77, 88], allocPacketStatus := 0,
    extradataAlloc := true, avctxExtradataAlloc := true, releaseStatus := 0,
    formatDeleteStatus := 0, newFormat := none, formatToString := true }

/-- Output environment: a 3-byte real payload at 280000 us, key-framed. -/
def outPayload : OutEnv :=
  { outConfig with
    info := { offset := 0, size := 3, presentationTimeUs := 280000,
              flags := { codecConfig := false, keyFrame := true, endOfStream := false } },
    outputBuf := some [1, 2, 3] }

/-- One successful input-buffer acquisition and submission (capacity 10). -/
def inOk : InIterEnv := { deqIndex := 0, inputBuf := some 10, queueStatus := 0 }

/-- Input-buffer dequeue times out. -/
def inTryAgain : InIterEnv :=
  { deqIndex := INFO_TRY_AGAIN_LATER, inputBuf := none, queueStatus := 0 }

/-- A real-payload output is dequeued but packet allocation fails. -/
def envAllocFail : CallEnv := { inputEnv := [inOk], outEnv := outAllocFail }

/-- A configuration output is dequeued but the extradata allocation fails. -/
def envExtraAllocFail : CallEnv := { inputEnv := [inOk], outEnv := outExtraAllocFail }

/-- End-of-stream call whose input-buffer dequeue times out. -/
def envTryAgainIn : CallEnv := { inputEnv := [inTryAgain], outEnv := outTryAgain }

/-- Two input iterations with capacity-4 buffers; no output ready. -/
def envTwoBuf : CallEnv :=
  { inputEnv := [{ deqIndex := 0, inputBuf := some 4, queueStatus := 0 },
                 { deqIndex := 1, inputBuf := some 4, queueStatus := 0 }],
    outEnv := outTryAgain }

/-- An end-of-stream encode call: one successful empty submission, then a
timed-out output dequeue. -/
def eosCall : CallSpec :=
  { env := { inputEnv := [inOk], outEnv := outTryAgain },
    frame := testFrame, frame_size := 0, pkt0 := testPkt, gp0 := 0 }

/-- First call of the two-call scenario: submit the frame, drain the
configuration buffer. -/
def cfgCall : CallSpec :=
  { env := { inputEnv := [inOk], outEnv := outConfig },
    frame := testFrame, frame_size := 6, pkt0 := testPkt, gp0 := 0 }

/-- Second call: input dequeue times out, drain the first real payload. -/
def payCall : CallSpec :=
  { env := { inputEnv := [inTryAgain], outEnv := outPayload },
    frame := testFrame, frame_size := 6, pkt0 := testPkt, gp0 := 0 }

/-- The result of running `cfgCall` on the fresh session. -/
def oneCallOut : EncodeResult :=
  ff_mediacodec_enc_encode cfgCall.env testAvctx testCtx cfgCall.pkt0 cfgCall.frame
    cfgCall.gp0 cfgCall.frame_size

/-- The first submission record produced by `envTwoBuf` on a size-6 frame:
declared size 4 (the `FFMIN`), but 6 payload bytes written. -/
def twoBufRec : SubmitRec :=
  { index := 0, offsetBefore := 0, offsetAfter := 4, capacity := 4, declaredSize := 4,
    payload := [1, 2, 3, 4, 5, 6], ptsUs := 280000, eos := false }

/-! ## Helper lemmas -/

theorem map_pixel_format_eq (p : Int) :
    mcdec_map_pixel_format p =
      if p = AV_PIX_FMT_YUV420P then COLOR_FormatYUV420Planar
      else if p = AV_PIX_FMT_NV12 then COLOR_FormatYUV420SemiPlanar
      else 0 := by
  by_cases h1 : p = AV_PIX_FMT_YUV420P
  · subst h1; decide
  · by_cases h2 : p = AV_PIX_FMT_NV12
    · subst h2; decide
    · have e1 : ((AV_PIX_FMT_YUV420P : Int) == p) = false := by
        simp only [beq_eq_false_iff_ne]; exact fun h => h1 h.symm
      have e2 : ((AV_PIX_FMT_NV12 : Int) == p) = false := by
        simp only [beq_eq_false_iff_ne]; exact fun h => h2 h.symm
      have e3 : ((0 : Int) == p) = false := by
        simp only [beq_eq_false_iff_ne]
        intro h
        exact h1 (by simpa [AV_PIX_FMT_YUV420P] using h.symm)
      simp [mcdec_map_pixel_format, color_formats, List.find?, e1, e2, e3, h1, h2]

/-! ## Claim theorems -/

/-- C5: for every pixel format in the fixed mapping table the mapper
returns that entry's color-format code (first match wins), and for every
other pixel format it returns 0, which is not the color-format code of
any mapping entry, signalling failure. -/
theorem c5_pixel_format_mapper :
    mcdec_map_pixel_format AV_PIX_FMT_YUV420P = COLOR_FormatYUV420Planar ∧
    mcdec_map_pixel_format AV_PIX_FMT_NV12 = COLOR_FormatYUV420SemiPlanar ∧
    ∀ p : Int, p ≠ AV_PIX_FMT_YUV420P → p ≠ AV_PIX_FMT_NV12 →
      mcdec_map_pixel_format p = 0 ∧
      mcdec_map_pixel_format p ≠ COLOR_FormatYUV420Planar ∧
      mcdec_map_pixel_format p ≠ COLOR_FormatYUV420SemiPlanar := by
  refine ⟨by decide, by decide, ?_⟩
  intro p h1 h2
  rw [map_pixel_format_eq, if_neg h1, if_neg h2]
  refine ⟨rfl, by decide, by decide⟩

/-- Witness for C5 at the unsupported pixel format 1 (`AV_PIX_FMT_YUYV422`). -/
theorem c5_pixel_format_mapper_witness :
    mcdec_map_pixel_format 1 = 0 ∧ mcdec_map_pixel_format 1 ≠ COLOR_FormatYUV420Planar := by
  have h := c5_pixel_format_mapper.2.2 1 (by decide) (by decide)
  exact ⟨h.1, h.2.1⟩

/-- C9: `ff_mediacodec_enc_close` returns success, is idempotent
(close after close equals close), and on an already-closed or
never-initialized session it is a no-op. -/
theorem c9_close_idempotent (s : MediaCodecEncContext) :
    (ff_mediacodec_enc_close s).2 = 0 ∧
    ff_mediacodec_enc_close (ff_mediacodec_enc_close s).1 = ff_mediacodec_enc_close s ∧
    (ff_mediacodec_enc_close s).1.codec = none ∧
    (s.codec = none → ff_mediacodec_enc_close s = (s, 0)) := by
  unfold ff_mediacodec_enc_close
  rcases h : s.codec with _ | c <;> simp [h]

/-- Witness for C9: closing the already-closed session obtained by
closing `testCtx` changes nothing and returns 0. -/
theorem c9_close_idempotent_witness :
    ff_mediacodec_enc_close (ff_mediacodec_enc_close testCtx).1 =
      ((ff_mediacodec_enc_close testCtx).1, 0) :=
  (c9_close_idempotent (ff_mediacodec_enc_close testCtx).1).2.2.2 (by decide)

/-- C1 (code bug): after a successful output-buffer dequeue (index 0), a
packet-allocation failure — and likewise an extradata-allocation failure on
a configuration buffer — makes `ff_mediacodec_enc_encode` return the error
without ever calling `releaseOutputBuffer`: the dequeued buffer is released
zero times, not exactly once. -/
theorem c1_alloc_failure_leaks_output_buffer :
    0 ≤ envAllocFail.outEnv.deqIndex ∧
    (ff_mediacodec_enc_encode envAllocFail testAvctx testCtx testPkt testFrame 0 4).ret =
      AVERROR_ENOMEM ∧
    (ff_mediacodec_enc_encode envAllocFail testAvctx testCtx testPkt testFrame 0 4).releases = 0 ∧
    0 ≤ envExtraAllocFail.outEnv.deqIndex ∧
    (ff_mediacodec_enc_encode envExtraAllocFail testAvctx testCtx testPkt testFrame 0 4).ret =
      AVERROR_EXTERNAL ∧
    (ff_mediacodec_enc_encode envExtraAllocFail testAvctx testCtx testPkt testFrame 0 4).releases
      = 0 := by
  decide

theorem drainConfig_facts (e : OutEnv) (avctx : AVCodecContext) (s : MediaCodecEncContext)
    (pkt : AVPacket) (gp off : Int) (data : List Nat) :
    (drainConfigBranch e avctx s pkt gp off data).realPayload = false ∧
    (drainConfigBranch e avctx s pkt gp off data).prefixed = false ∧
    (drainConfigBranch e avctx s pkt gp off data).s.first_buffer = s.first_buffer ∧
    (drainConfigBranch e avctx s pkt gp off data).s.queued_buffer_nb = s.queued_buffer_nb ∧
    (drainConfigBranch e avctx s pkt gp off data).gotPacket = gp ∧
    (drainConfigBranch e avctx s pkt gp off data).avctx.globalHeader = avctx.globalHeader := by
  unfold drainConfigBranch
  split_ifs <;> simp

theorem drainPayload_facts (e : OutEnv) (avctx : AVCodecContext) (s : MediaCodecEncContext)
    (pkt : AVPacket) (off : Int) (data : List Nat) :
    (drainPayloadBranch e avctx s pkt off data).realPayload = true ∧
    (drainPayloadBranch e avctx s pkt off data).prefixed =
      ((s.first_buffer == 0) && !avctx.globalHeader) ∧
    (drainPayloadBranch e avctx s pkt off data).s.first_buffer = s.first_buffer + 1 ∧
    (drainPayloadBranch e avctx s pkt off data).s.queued_buffer_nb = s.queued_buffer_nb - 1 ∧
    (drainPayloadBranch e avctx s pkt off data).gotPacket = 1 ∧
    (drainPayloadBranch e avctx s pkt off data).avctx.globalHeader = avctx.globalHeader := by
  unfold drainPayloadBranch
  split_ifs <;> simp

theorem drainEmpty_facts (e : OutEnv) (avctx : AVCodecContext) (s : MediaCodecEncContext)
    (pkt : AVPacket) (gp off : Int) :
    (drainEmptyBranch e avctx s pkt gp off).realPayload = false ∧
    (drainEmptyBranch e avctx s pkt gp off).prefixed = false ∧
    (drainEmptyBranch e avctx s pkt gp off).s = s ∧
    (drainEmptyBranch e avctx s pkt gp off).gotPacket = gp ∧
    (drainEmptyBranch e avctx s pkt gp off).avctx = avctx := by
  unfold drainEmptyBranch
  split_ifs <;> simp

theorem drainFormat_facts (e : OutEnv) (avctx : AVCodecContext) (s : MediaCodecEncContext)
    (pkt : AVPacket) (gp off : Int) :
    (drainFormatBranch e avctx s pkt gp off).realPayload = false ∧
    (drainFormatBranch e avctx s pkt gp off).prefixed = false ∧
    (drainFormatBranch e avctx s pkt gp off).s.first_buffer = s.first_buffer ∧
    (drainFormatBranch e avctx s pkt gp off).s.queued_buffer_nb = s.queued_buffer_nb ∧
    (drainFormatBranch e avctx s pkt gp off).gotPacket = gp ∧
    (drainFormatBranch e avctx s pkt gp off).pkt = pkt ∧
    (drainFormatBranch e avctx s pkt gp off).avctx = avctx := by
  unfold drainFormatBranch
  cases e.newFormat <;> split_ifs <;> simp

theorem drainValid_realPayload (e : OutEnv) (avctx : AVCodecContext)
    (s : MediaCodecEncContext) (pkt : AVPacket) (gp off : Int) :
    (drainValidBranch e avctx s pkt gp off).realPayload =
      (e.outputBuf.isSome && (e.allocPacketStatus == 0) &&
       decide (0 < e.info.size) && !e.info.flags.codecConfig) := by
  unfold drainValidBranch
  cases e.outputBuf <;> split_ifs <;>
    simp_all [drainConfig_facts, drainPayload_facts, drainEmpty_facts]

theorem outputDrain_realPayload (e : OutEnv) (avctx : AVCodecContext)
    (s : MediaCodecEncContext) (pkt : AVPacket) (gp off : Int) :
    (outputDrain e avctx s pkt gp off).realPayload =
      (decide (0 ≤ e.deqIndex) && e.outputBuf.isSome && (e.allocPacketStatus == 0) &&
       decide (0 < e.info.size) && !e.info.flags.codecConfig) := by
  unfold outputDrain
  split_ifs with h1 <;>
    simp_all [drainValid_realPayload, drainFormat_facts]

theorem outputDrain_first_buffer (e : OutEnv) (avctx : AVCodecContext)
    (s : MediaCodecEncContext) (pkt : AVPacket) (gp off : Int) :
    (outputDrain e avctx s pkt gp off).s.first_buffer =
      s.first_buffer + (if (outputDrain e avctx s pkt gp off).realPayload then 1 else 0) := by
  cases hb : e.outputBuf <;>
    unfold outputDrain drainValidBranch <;>
    split_ifs <;>
    simp_all [drainConfig_facts, drainPayload_facts, drainEmpty_facts, drainFormat_facts]

theorem outputDrain_queued (e : OutEnv) (avctx : AVCodecContext)
    (s : MediaCodecEncContext) (pkt : AVPacket) (gp off : Int) :
    (outputDrain e avctx s pkt gp off).s.queued_buffer_nb =
      s.queued_buffer_nb - (if (outputDrain e avctx s pkt gp off).realPayload then 1 else 0) := by
  cases hb : e.outputBuf <;>
    unfold outputDrain drainValidBranch <;>
    split_ifs <;>
    simp_all [drainConfig_facts, drainPayload_facts, drainEmpty_facts, drainFormat_facts]

theorem outputDrain_gotPacket (e : OutEnv) (avctx : AVCodecContext)
    (s : MediaCodecEncContext) (pkt : AVPacket) (gp off : Int) :
    (outputDrain e avctx s pkt gp off).gotPacket =
      (if (outputDrain e avctx s pkt gp off).realPayload then 1 else gp) := by
  cases hb : e.outputBuf <;>
    unfold outputDrain drainValidBranch <;>
    split_ifs <;>
    simp_all [drainConfig_facts, drainPayload_facts, drainEmpty_facts, drainFormat_facts]

theorem outputDrain_prefixed (e : OutEnv) (avctx : AVCodecContext)
    (s : MediaCodecEncContext) (pkt : AVPacket) (gp off : Int) :
    (outputDrain e avctx s pkt gp off).prefixed =
      ((outputDrain e avctx s pkt gp off).realPayload && (s.first_buffer == 0) &&
        !avctx.globalHeader) := by
  cases hb : e.outputBuf <;>
    unfold outputDrain drainValidBranch <;>
    split_ifs <;>
    simp_all [drainConfig_facts, drainPayload_facts, drainEmpty_facts, drainFormat_facts]

theorem outputDrain_gh (e : OutEnv) (avctx : AVCodecContext)
    (s : MediaCodecEncContext) (pkt : AVPacket) (gp off : Int) :
    (outputDrain e avctx s pkt gp off).avctx.globalHeader = avctx.globalHeader := by
  cases hb : e.outputBuf <;>
    unfold outputDrain drainValidBranch <;>
    split_ifs <;>
    simp_all [drainConfig_facts, drainPayload_facts, drainEmpty_facts, drainFormat_facts]

theorem inputLoop_first_buffer (avctx : AVCodecContext) (frame : AVFrame) (fs : Int) :
    ∀ (env : List InIterEnv) (s : MediaCodecEncContext) (off : Int),
    (inputLoop avctx frame fs env s off).s.first_buffer = s.first_buffer := by
  intro env
  induction env with
  | nil => intro s off; unfold inputLoop; split_ifs <;> rfl
  | cons e rest ih =>
    intro s off
    unfold inputLoop
    cases hb : e.inputBuf <;> split_ifs <;> simp_all [ih]

theorem inputLoop_queued (avctx : AVCodecContext) (frame : AVFrame) (fs : Int) :
    ∀ (env : List InIterEnv) (s : MediaCodecEncContext) (off : Int),
    (inputLoop avctx frame fs env s off).s.queued_buffer_nb =
      s.queued_buffer_nb +
        (((inputLoop avctx frame fs env s off).trace.filter (fun t => !t.eos)).length : Int) := by
  intro env
  induction env with
  | nil => intro s off; unfold inputLoop; split_ifs <;> simp
  | cons e rest ih =>
    intro s off
    unfold inputLoop
    cases hb : e.inputBuf <;> split_ifs <;> simp_all [ih] <;> omega

theorem inputLoop_trace_frame (avctx : AVCodecContext) (frame : AVFrame) (fs : Int)
    (hfs : fs ≠ 0) :
    ∀ (env : List InIterEnv) (s : MediaCodecEncContext) (off : Int),
    ∀ t ∈ (inputLoop avctx frame fs env s off).trace,
      t.eos = false ∧
      t.declaredSize = min (fs - t.offsetBefore) (t.capacity : Int) ∧
      t.offsetAfter = t.offsetBefore + t.declaredSize ∧
      t.payload = framePayload s frame ∧
      t.ptsUs = ptsToUs frame.pts avctx.time_base_num avctx.time_base_den := by
  intro env
  induction env with
  | nil => intro s off t ht; unfold inputLoop at ht; split_ifs at ht <;> simp_all
  | cons e rest ih =>
    intro s off t ht
    unfold inputLoop at ht
    cases hb : e.inputBuf with
    | none =>
      simp only [hb] at ht
      split_ifs at ht <;> simp_all
    | some cap =>
      simp only [hb] at ht
      split_ifs at ht with h1 h2 h3 h4 <;> try simp_all
      rcases ht with h | h
      · subst h
        refine ⟨rfl, rfl, rfl, rfl, rfl⟩
      · have hrec := ih _ _ t h
        exact hrec

theorem encode_gh (env : CallEnv) (avctx : AVCodecContext) (s : MediaCodecEncContext)
    (pkt : AVPacket) (frame : AVFrame) (gp fs : Int) :
    (ff_mediacodec_enc_encode env avctx s pkt frame gp fs).avctx.globalHeader =
      avctx.globalHeader := by
  unfold ff_mediacodec_enc_encode
  rcases hx : (inputLoop avctx frame fs env.inputEnv s 0).exit <;>
    simp [hx, outputDrain_gh]

theorem encode_first_buffer (env : CallEnv) (avctx : AVCodecContext)
    (s : MediaCodecEncContext) (pkt : AVPacket) (frame : AVFrame) (gp fs : Int) :
    (ff_mediacodec_enc_encode env avctx s pkt frame gp fs).s.first_buffer =
      s.first_buffer +
        (if (ff_mediacodec_enc_encode env avctx s pkt frame gp fs).realPayload then 1
         else 0) := by
  unfold ff_mediacodec_enc_encode
  rcases hx : (inputLoop avctx frame fs env.inputEnv s 0).exit <;>
    simp [hx, outputDrain_first_buffer, inputLoop_first_buffer]

theorem encode_prefixed (env : CallEnv) (avctx : AVCodecContext)
    (s : MediaCodecEncContext) (pkt : AVPacket) (frame : AVFrame) (gp fs : Int) :
    (ff_mediacodec_enc_encode env avctx s pkt frame gp fs).prefixed =
      ((ff_mediacodec_enc_encode env avctx s pkt frame gp fs).realPayload &&
        (s.first_buffer == 0) && !avctx.globalHeader) := by
  unfold ff_mediacodec_enc_encode
  rcases hx : (inputLoop avctx frame fs env.inputEnv s 0).exit <;>
    simp [hx, outputDrain_prefixed, inputLoop_first_buffer]

theorem encode_queued (env : CallEnv) (avctx : AVCodecContext)
    (s : MediaCodecEncContext) (pkt : AVPacket) (frame : AVFrame) (gp fs : Int) :
    (ff_mediacodec_enc_encode env avctx s pkt frame gp fs).s.queued_buffer_nb =
      s.queued_buffer_nb +
        ((((ff_mediacodec_enc_encode env avctx s pkt frame gp fs).submitTrace.filter
            (fun t => !t.eos)).length : Int)) -
        (if (ff_mediacodec_enc_encode env avctx s pkt frame gp fs).realPayload then 1
         else 0) := by
  unfold ff_mediacodec_enc_encode
  rcases hx : (inputLoop avctx frame fs env.inputEnv s 0).exit <;>
    simp [hx, outputDrain_queued, inputLoop_queued]

theorem encode_gotPacket (env : CallEnv) (avctx : AVCodecContext)
    (s : MediaCodecEncContext) (pkt : AVPacket) (frame : AVFrame) (gp fs : Int) :
    (ff_mediacodec_enc_encode env avctx s pkt frame gp fs).gotPacket =
      (if (ff_mediacodec_enc_encode env avctx s pkt frame gp fs).realPayload then 1
       else gp) := by
  unfold ff_mediacodec_enc_encode
  rcases hx : (inputLoop avctx frame fs env.inputEnv s 0).exit <;>
    simp [hx, outputDrain_gotPacket]

theorem encode_realPayload (env : CallEnv) (avctx : AVCodecContext)
    (s : MediaCodecEncContext) (pkt : AVPacket) (frame : AVFrame) (gp fs : Int) :
    (ff_mediacodec_enc_encode env avctx s pkt frame gp fs).realPayload =
      (decide ((ff_mediacodec_enc_encode env avctx s pkt frame gp fs).inExit = .done) &&
       decide (0 ≤ env.outEnv.deqIndex) && env.outEnv.outputBuf.isSome &&
       (env.outEnv.allocPacketStatus == 0) && decide (0 < env.outEnv.info.size) &&
       !env.outEnv.info.flags.codecConfig) := by
  unfold ff_mediacodec_enc_encode
  rcases hx : (inputLoop avctx frame fs env.inputEnv s 0).exit <;>
    simp [hx, outputDrain_realPayload]

theorem payloadCount_cons (r : EncodeResult) (l : List EncodeResult) :
    payloadCount (r :: l) = (if r.realPayload then 1 else 0) + payloadCount l := by
  unfold payloadCount
  rw [List.filter_cons]
  split_ifs <;> simp <;> omega

theorem prefixedCount_cons (r : EncodeResult) (l : List EncodeResult) :
    prefixedCount (r :: l) = (if r.prefixed then 1 else 0) + prefixedCount l := by
  unfold prefixedCount
  rw [List.filter_cons]
  split_ifs <;> simp <;> omega

theorem frameSubmitCount_cons (r : EncodeResult) (l : List EncodeResult) :
    frameSubmitCount (r :: l) =
      (r.submitTrace.filter (fun t => !t.eos)).length + frameSubmitCount l := by
  unfold frameSubmitCount
  simp

theorem payloadCount_append (a b : List EncodeResult) :
    payloadCount (a ++ b) = payloadCount a + payloadCount b := by
  simp [payloadCount, List.filter_append]

theorem payloadCount_zero_iff (l : List EncodeResult) :
    payloadCount l = 0 ↔ ∀ y ∈ l, y.realPayload = false := by
  simp [payloadCount, List.length_eq_zero, List.filter_eq_nil_iff]

theorem runCalls_pos (calls : List CallSpec) :
    ∀ (avctx : AVCodecContext) (s0 : MediaCodecEncContext)
      (pre : List EncodeResult) (x : EncodeResult) (post : List EncodeResult),
    (runCalls avctx s0 calls).2.2 = pre ++ x :: post →
    x.s.first_buffer = s0.first_buffer + payloadCount (pre ++ [x]) ∧
    x.s.queued_buffer_nb =
      s0.queued_buffer_nb + (frameSubmitCount (pre ++ [x]) : Int) -
        (payloadCount (pre ++ [x]) : Int) ∧
    (x.prefixed = true → x.realPayload = true ∧ avctx.globalHeader = false ∧
      s0.first_buffer + payloadCount pre = 0) := by
  induction calls with
  | nil =>
    intro avctx s0 pre x post h
    simp [runCalls] at h
  | cons c cs ih =>
    intro avctx s0 pre x post h
    simp only [runCalls] at h
    cases pre with
    | nil =>
      simp only [List.nil_append, List.cons.injEq] at h
      obtain ⟨hx, _hpost⟩ := h
      subst hx
      refine ⟨?_, ?_, ?_⟩
      · rw [encode_first_buffer, List.nil_append, payloadCount_cons]
        cases hrp : (ff_mediacodec_enc_encode c.env avctx s0 c.pkt0 c.frame c.gp0
            c.frame_size).realPayload <;>
          simp [hrp, payloadCount]
      · rw [encode_queued, List.nil_append, payloadCount_cons, frameSubmitCount_cons]
        cases hrp : (ff_mediacodec_enc_encode c.env avctx s0 c.pkt0 c.frame c.gp0
            c.frame_size).realPayload <;>
          simp [hrp, payloadCount, frameSubmitCount]
      · intro hp
        rw [encode_prefixed] at hp
        simp only [Bool.and_eq_true, beq_iff_eq, Bool.not_eq_true'] at hp
        exact ⟨hp.1.1, hp.2, by simp [payloadCount, hp.1.2]⟩
    | cons p pre' =>
      simp only [List.cons_append, List.cons.injEq] at h
      obtain ⟨hp, houts⟩ := h
      subst hp
      obtain ⟨ihfb, ihq, ihpre⟩ := ih _ _ pre' x post houts
      have hfb := encode_first_buffer c.env avctx s0 c.pkt0 c.frame c.gp0 c.frame_size
      have hq := encode_queued c.env avctx s0 c.pkt0 c.frame c.gp0 c.frame_size
      have hgh := encode_gh c.env avctx s0 c.pkt0 c.frame c.gp0 c.frame_size
      refine ⟨?_, ?_, ?_⟩
      · rw [ihfb, hfb, List.cons_append, payloadCount_cons]
        ring
      · rw [ihq, hq, List.cons_append, payloadCount_cons, frameSubmitCount_cons]
        push_cast
        ring
      · intro hpx
        obtain ⟨h1, h2, h3⟩ := ihpre hpx
        refine ⟨h1, by rw [← hgh]; exact h2, ?_⟩
        rw [payloadCount_cons, ihfb.symm] at *
        omega

theorem runCalls_prefixedCount (calls : List CallSpec) :
    ∀ (avctx : AVCodecContext) (s0 : MediaCodecEncContext),
    prefixedCount (runCalls avctx s0 calls).2.2 ≤ 1 ∧
    (s0.first_buffer ≠ 0 → prefixedCount (runCalls avctx s0 calls).2.2 = 0) ∧
    (avctx.globalHeader = true → prefixedCount (runCalls avctx s0 calls).2.2 = 0) := by
  induction calls with
  | nil => intro avctx s0; simp [runCalls, prefixedCount]
  | cons c cs ih =>
    intro avctx s0
    simp only [runCalls]
    rw [prefixedCount_cons]
    obtain ⟨iha, ihb, ihc⟩ :=
      ih (ff_mediacodec_enc_encode c.env avctx s0 c.pkt0 c.frame c.gp0 c.frame_size).avctx
         (ff_mediacodec_enc_encode c.env avctx s0 c.pkt0 c.frame c.gp0 c.frame_size).s
    have hpr := encode_prefixed c.env avctx s0 c.pkt0 c.frame c.gp0 c.frame_size
    have hfb := encode_first_buffer c.env avctx s0 c.pkt0 c.frame c.gp0 c.frame_size
    have hgh := encode_gh c.env avctx s0 c.pkt0 c.frame c.gp0 c.frame_size
    refine ⟨?_, ?_, ?_⟩
    · cases hp : (ff_mediacodec_enc_encode c.env avctx s0 c.pkt0 c.frame c.gp0
          c.frame_size).prefixed
      · simpa [hp] using iha
      · rw [hp] at hpr
        have hrp : (ff_mediacodec_enc_encode c.env avctx s0 c.pkt0 c.frame c.gp0
            c.frame_size).realPayload = true := by
          have h1 := hpr.symm
          simp only [Bool.and_eq_true] at h1
          exact h1.1.1
        have hz : (ff_mediacodec_enc_encode c.env avctx s0 c.pkt0 c.frame c.gp0
            c.frame_size).s.first_buffer ≠ 0 := by
          rw [hfb, hrp]
          simp
        simp [hp, ihb hz]
    · intro h0
      have hpf : (ff_mediacodec_enc_encode c.env avctx s0 c.pkt0 c.frame c.gp0
          c.frame_size).prefixed = false := by
        rw [hpr]
        simp [beq_eq_false_iff_ne, h0]
      have hz : (ff_mediacodec_enc_encode c.env avctx s0 c.pkt0 c.frame c.gp0
          c.frame_size).s.first_buffer ≠ 0 := by
        rw [hfb]
        omega
      simp [hpf, ihb hz]
    · intro hg
      have hpf : (ff_mediacodec_enc_encode c.env avctx s0 c.pkt0 c.frame c.gp0
          c.frame_size).prefixed = false := by
        rw [hpr, hg]
        simp
      simp [hpf, ihc (by rw [hgh]; exact hg)]

theorem classify_iff (idx : Int) :
    (classifyOutputIndex idx = .validIndex ↔ 0 ≤ idx) ∧
    (classifyOutputIndex idx = .formatChanged ↔ idx = INFO_OUTPUT_FORMAT_CHANGED) ∧
    (classifyOutputIndex idx = .buffersChanged ↔ idx = INFO_OUTPUT_BUFFERS_CHANGED) ∧
    (classifyOutputIndex idx = .tryAgain ↔ idx = INFO_TRY_AGAIN_LATER) ∧
    (classifyOutputIndex idx = .otherNegative ↔
      idx < 0 ∧ idx ≠ INFO_TRY_AGAIN_LATER ∧ idx ≠ INFO_OUTPUT_FORMAT_CHANGED ∧
        idx ≠ INFO_OUTPUT_BUFFERS_CHANGED) := by
  unfold classifyOutputIndex infoOutputFormatChanged infoOutputBuffersChanged
    infoTryAgainLater INFO_OUTPUT_FORMAT_CHANGED INFO_OUTPUT_BUFFERS_CHANGED
    INFO_TRY_AGAIN_LATER
  split_ifs <;> simp_all <;> omega

theorem drain_other_negative (e : OutEnv) (avctx : AVCodecContext)
    (s : MediaCodecEncContext) (pkt : AVPacket) (gp off : Int)
    (h : classifyOutputIndex e.deqIndex = .otherNegative) :
    (outputDrain e avctx s pkt gp off).ret = AVERROR_EXTERNAL ∧
    (outputDrain e avctx s pkt gp off).gotPacket = gp ∧
    (outputDrain e avctx s pkt gp off).pkt = pkt ∧
    (outputDrain e avctx s pkt gp off).s = s := by
  obtain ⟨hneg, h1, h2, h3⟩ := (classify_iff e.deqIndex).2.2.2.2.mp h
  simp only [INFO_TRY_AGAIN_LATER] at h1
  simp only [INFO_OUTPUT_FORMAT_CHANGED] at h2
  simp only [INFO_OUTPUT_BUFFERS_CHANGED] at h3
  have b1 : infoOutputFormatChanged e.deqIndex = false := by
    simp [infoOutputFormatChanged, INFO_OUTPUT_FORMAT_CHANGED]
    omega
  have b2 : infoOutputBuffersChanged e.deqIndex = false := by
    simp [infoOutputBuffersChanged, INFO_OUTPUT_BUFFERS_CHANGED]
    omega
  have b3 : infoTryAgainLater e.deqIndex = false := by
    simp [infoTryAgainLater, INFO_TRY_AGAIN_LATER]
    omega
  simp [outputDrain, b1, b2, b3, hneg, not_le.mpr hneg]

theorem drain_quiet (e : OutEnv) (avctx : AVCodecContext)
    (s : MediaCodecEncContext) (pkt : AVPacket) (gp off : Int)
    (h : classifyOutputIndex e.deqIndex = .buffersChanged ∨
         classifyOutputIndex e.deqIndex = .tryAgain) :
    (outputDrain e avctx s pkt gp off).ret = off ∧
    (outputDrain e avctx s pkt gp off).gotPacket = gp ∧
    (outputDrain e avctx s pkt gp off).pkt = pkt ∧
    (outputDrain e avctx s pkt gp off).s = s := by
  rcases h with h | h
  · have hi := (classify_iff e.deqIndex).2.2.1.mp h
    simp [outputDrain, hi, infoOutputFormatChanged, infoOutputBuffersChanged,
      INFO_OUTPUT_FORMAT_CHANGED, INFO_OUTPUT_BUFFERS_CHANGED]
  · have hi := (classify_iff e.deqIndex).2.2.2.1.mp h
    simp [outputDrain, hi, infoOutputFormatChanged, infoOutputBuffersChanged,
      infoTryAgainLater, INFO_OUTPUT_FORMAT_CHANGED, INFO_OUTPUT_BUFFERS_CHANGED,
      INFO_TRY_AGAIN_LATER]

theorem drain_format_change_ok (e : OutEnv) (avctx : AVCodecContext)
    (s : MediaCodecEncContext) (pkt : AVPacket) (gp off : Int) (f : Nat)
    (h : classifyOutputIndex e.deqIndex = .formatChanged)
    (hf : e.newFormat = some f) (hts : e.formatToString = true) :
    (outputDrain e avctx s pkt gp off).ret = off ∧
    (outputDrain e avctx s pkt gp off).gotPacket = gp ∧
    (outputDrain e avctx s pkt gp off).pkt = pkt ∧
    (outputDrain e avctx s pkt gp off).s = { s with format := some f } := by
  have hi := (classify_iff e.deqIndex).2.1.mp h
  simp [outputDrain, drainFormatBranch, hi, hf, hts, infoOutputFormatChanged,
    INFO_OUTPUT_FORMAT_CHANGED]

/-- C2: across any sequence of encode calls on a fresh session, the captured
configuration bytes are prepended to a produced packet at most once; with
global-header mode on, never; a prefixed packet is a real payload and no
earlier call of the trace produced a real payload; and the one-shot
`first_buffer` counter equals the number of real payloads produced so far,
so once nonzero it never reverts (it is monotone along the trace). -/
theorem c2_extradata_prefix_once (avctx : AVCodecContext) (s0 : MediaCodecEncContext)
    (calls : List CallSpec) (h0 : s0.first_buffer = 0) :
    prefixedCount (runCalls avctx s0 calls).2.2 ≤ 1 ∧
    (avctx.globalHeader = true → prefixedCount (runCalls avctx s0 calls).2.2 = 0) ∧
    (∀ pre x post, (runCalls avctx s0 calls).2.2 = pre ++ x :: post →
       (x.prefixed = true →
         x.realPayload = true ∧ avctx.globalHeader = false ∧
         ∀ y ∈ pre, y.realPayload = false) ∧
       x.s.first_buffer = payloadCount (pre ++ [x]) ∧
       s0.first_buffer ≤ x.s.first_buffer) ∧
    (∀ pre x mid y post,
       (runCalls avctx s0 calls).2.2 = pre ++ x :: (mid ++ y :: post) →
       x.s.first_buffer ≤ y.s.first_buffer) := by
  refine ⟨(runCalls_prefixedCount calls avctx s0).1,
          (runCalls_prefixedCount calls avctx s0).2.2, ?_, ?_⟩
  · intro pre x post h
    obtain ⟨hfb, _, hpre⟩ := runCalls_pos calls avctx s0 pre x post h
    refine ⟨?_, ?_, ?_⟩
    · intro hp
      obtain ⟨h1, h2, h3⟩ := hpre hp
      rw [h0, Nat.zero_add] at h3
      exact ⟨h1, h2, (payloadCount_zero_iff pre).mp h3⟩
    · rw [hfb, h0, Nat.zero_add]
    · rw [hfb]; omega
  · intro pre x mid y post h
    obtain ⟨hfbx, _, _⟩ := runCalls_pos calls avctx s0 pre x (mid ++ y :: post) h
    obtain ⟨hfby, _, _⟩ := runCalls_pos calls avctx s0 (pre ++ x :: mid) y post
      (by rw [h]; simp)
    have hz : payloadCount ([] : List EncodeResult) = 0 := rfl
    rw [hfbx, hfby, payloadCount_append pre [x],
        payloadCount_append (pre ++ x :: mid) [y], payloadCount_append pre (x :: mid),
        payloadCount_cons x mid, payloadCount_cons x [], hz]
    omega

/-- Witness for C2: on the two-call configuration-then-payload trace the
extradata bytes are prepended at most once. -/
theorem c2_extradata_prefix_once_witness :
    prefixedCount (runCalls testAvctx testCtx [cfgCall, payCall]).2.2 ≤ 1 :=
  (c2_extradata_prefix_once testAvctx testCtx [cfgCall, payCall] rfl).1

/-- C3 (amended): on a fresh session, after any prefix of a call trace the
queued-buffer counter equals the number of successful frame-data
(non-end-of-stream) input submissions minus the number of real-payload
retrievals; under the encoder-causality assumption that retrievals never
exceed frame submissions, the counter is non-negative.  (The end-of-stream
empty submission is a successful input submission that is not counted.) -/
theorem c3_queue_counter (avctx : AVCodecContext) (s0 : MediaCodecEncContext)
    (calls : List CallSpec) (h0 : s0.queued_buffer_nb = 0) :
    (∀ pre x post, (runCalls avctx s0 calls).2.2 = pre ++ x :: post →
       x.s.queued_buffer_nb =
         (frameSubmitCount (pre ++ [x]) : Int) - (payloadCount (pre ++ [x]) : Int)) ∧
    ((∀ pre x post, (runCalls avctx s0 calls).2.2 = pre ++ x :: post →
        payloadCount (pre ++ [x]) ≤ frameSubmitCount (pre ++ [x])) →
      ∀ pre x post, (runCalls avctx s0 calls).2.2 = pre ++ x :: post →
        0 ≤ x.s.queued_buffer_nb) := by
  have hmain : ∀ pre x post, (runCalls avctx s0 calls).2.2 = pre ++ x :: post →
      x.s.queued_buffer_nb =
        (frameSubmitCount (pre ++ [x]) : Int) - (payloadCount (pre ++ [x]) : Int) := by
    intro pre x post h
    obtain ⟨_, hq, _⟩ := runCalls_pos calls avctx s0 pre x post h
    rw [hq, h0]
    ring
  refine ⟨hmain, ?_⟩
  intro hcaus pre x post h
  have h1 := hmain pre x post h
  have h2 := hcaus pre x post h
  rw [h1]
  have h3 : (payloadCount (pre ++ [x]) : Int) ≤ (frameSubmitCount (pre ++ [x]) : Int) := by
    exact_mod_cast h2
  omega

/-- Witness for C3: on the single configuration-drain call the counter
equals frame submissions minus real-payload retrievals. -/
theorem c3_queue_counter_witness :
    oneCallOut.s.queued_buffer_nb =
      (frameSubmitCount ([] ++ [oneCallOut]) : Int) -
        (payloadCount ([] ++ [oneCallOut]) : Int) :=
  (c3_queue_counter testAvctx testCtx [cfgCall] rfl).1 [] oneCallOut [] (by decide)

/-- Counterexample for C3 as stated: an end-of-stream call performs one
successful input-buffer submission (the empty end-of-stream buffer) and no
real-payload retrieval, yet the counter stays 0, not 1 - 0: the counter
does not count every successful input-buffer submission. -/
theorem c3_cex_eos_submission_not_counted :
    submitCount (runCalls testAvctx testCtx [eosCall]).2.2 = 1 ∧
    payloadCount (runCalls testAvctx testCtx [eosCall]).2.2 = 0 ∧
    ∀ r ∈ (runCalls testAvctx testCtx [eosCall]).2.2,
      r.ret = 0 ∧ r.submitTrace.length = 1 ∧
      ¬ (r.s.queued_buffer_nb = (1 : Int) - (0 : Int)) := by
  decide

/-- C4 (amended): the dequeue result is classified into the five mutually
exclusive, exhaustive outcomes of the source's if/else-if chain; every
unrecognized negative result fails the call with `AVERROR_EXTERNAL`; the
buffer-set-changed and timeout outcomes produce no packet and do not fail;
the format-changed outcome produces no packet and does not fail provided
retrieving and stringifying the new format descriptor succeed. -/
theorem c4_output_outcome_classification :
    (∀ idx : Int,
      (classifyOutputIndex idx = .validIndex ↔ 0 ≤ idx) ∧
      (classifyOutputIndex idx = .formatChanged ↔ idx = INFO_OUTPUT_FORMAT_CHANGED) ∧
      (classifyOutputIndex idx = .buffersChanged ↔ idx = INFO_OUTPUT_BUFFERS_CHANGED) ∧
      (classifyOutputIndex idx = .tryAgain ↔ idx = INFO_TRY_AGAIN_LATER) ∧
      (classifyOutputIndex idx = .otherNegative ↔
        idx < 0 ∧ idx ≠ INFO_TRY_AGAIN_LATER ∧ idx ≠ INFO_OUTPUT_FORMAT_CHANGED ∧
          idx ≠ INFO_OUTPUT_BUFFERS_CHANGED)) ∧
    (∀ (e : OutEnv) (avctx : AVCodecContext) (s : MediaCodecEncContext)
        (pkt : AVPacket) (gp off : Int),
      (classifyOutputIndex e.deqIndex = .otherNegative →
        (outputDrain e avctx s pkt gp off).ret = AVERROR_EXTERNAL ∧
        (outputDrain e avctx s pkt gp off).gotPacket = gp ∧
        (outputDrain e avctx s pkt gp off).pkt = pkt) ∧
      (classifyOutputIndex e.deqIndex = .buffersChanged ∨
          classifyOutputIndex e.deqIndex = .tryAgain →
        (outputDrain e avctx s pkt gp off).ret = off ∧
        (outputDrain e avctx s pkt gp off).gotPacket = gp ∧
        (outputDrain e avctx s pkt gp off).pkt = pkt ∧
        (outputDrain e avctx s pkt gp off).s = s) ∧
      (∀ f : Nat, classifyOutputIndex e.deqIndex = .formatChanged →
          e.newFormat = some f → e.formatToString = true →
        (outputDrain e avctx s pkt gp off).ret = off ∧
        (outputDrain e avctx s pkt gp off).gotPacket = gp ∧
        (outputDrain e avctx s pkt gp off).pkt = pkt ∧
        (outputDrain e avctx s pkt gp off).s = { s with format := some f })) := by
  refine ⟨classify_iff, ?_⟩
  intro e avctx s pkt gp off
  refine ⟨?_, ?_, ?_⟩
  · intro h
    obtain ⟨h1, h2, h3, _⟩ := drain_other_negative e avctx s pkt gp off h
    exact ⟨h1, h2, h3⟩
  · exact drain_quiet e avctx s pkt gp off
  · intro f h hf hts
    exact drain_format_change_ok e avctx s pkt gp off f h hf hts

/-- Witness for C4 at the unrecognized negative status -7: the call fails
with `AVERROR_EXTERNAL` and leaves `*got_packet` untouched. -/
theorem c4_output_outcome_classification_witness :
    (outputDrain outOtherNeg testAvctx testCtx testPkt 5 3).ret = AVERROR_EXTERNAL ∧
    (outputDrain outOtherNeg testAvctx testCtx testPkt 5 3).gotPacket = 5 :=
  ⟨((c4_output_outcome_classification.2 outOtherNeg testAvctx testCtx testPkt 5 3).1
      (by decide)).1,
   ((c4_output_outcome_classification.2 outOtherNeg testAvctx testCtx testPkt 5 3).1
      (by decide)).2.1⟩

/-- Counterexample for C4 as stated: a format-changed outcome whose
`getOutputFormat` call returns NULL makes the encode call fail with
`AVERROR_EXTERNAL`, so the format-changed outcome can fail the call. -/
theorem c4_cex_format_change_failure :
    classifyOutputIndex outFmtFail.deqIndex = OutputOutcome.formatChanged ∧
    (outputDrain outFmtFail testAvctx testCtx testPkt 0 0).ret = AVERROR_EXTERNAL ∧
    AVERROR_EXTERNAL < 0 := by
  decide

/-- C6 (amended): in every input-loop iteration of a real-frame encode call,
the declared submission size is `min(frame_size - offset, capacity)`,
`offset` advances by that declared size, the submission carries the
converted presentation timestamp and no end-of-stream flag, but the bytes
actually written are always the fixed NV12 planes — `width*height` luma
plus `width*height/2` chroma bytes — independent of the declared size. -/
theorem c6_input_iteration_behavior :
    (∀ (avctx : AVCodecContext) (frame : AVFrame) (fs : Int), fs ≠ 0 →
      ∀ (env : List InIterEnv) (s : MediaCodecEncContext) (off : Int),
      ∀ t ∈ (inputLoop avctx frame fs env s off).trace,
        t.eos = false ∧
        t.declaredSize = min (fs - t.offsetBefore) (t.capacity : Int) ∧
        t.offsetAfter = t.offsetBefore + t.declaredSize ∧
        t.payload = framePayload s frame ∧
        t.ptsUs = ptsToUs frame.pts avctx.time_base_num avctx.time_base_den) ∧
    (∀ (s : MediaCodecEncContext) (frame : AVFrame),
      s.width * s.height ≤ frame.data0.length →
      s.width * s.height / 2 ≤ frame.data1.length →
      (framePayload s frame).length = s.width * s.height + s.width * s.height / 2) := by
  refine ⟨fun avctx frame fs hfs => inputLoop_trace_frame avctx frame fs hfs, ?_⟩
  intro s frame h1 h2
  simp [framePayload, List.length_take, Nat.min_eq_left h1, Nat.min_eq_left h2]

/-- Witness for C6 at the first capacity-4 iteration of a size-6 frame. -/
theorem c6_input_iteration_behavior_witness :
    twoBufRec ∈ (inputLoop testAvctx testFrame 6 envTwoBuf.inputEnv testCtx 0).trace ∧
    twoBufRec.declaredSize = min (6 - twoBufRec.offsetBefore) (twoBufRec.capacity : Int) ∧
    twoBufRec.offsetAfter = twoBufRec.offsetBefore + twoBufRec.declaredSize :=
  ⟨by decide,
   (c6_input_iteration_behavior.1 testAvctx testFrame 6 (by decide) envTwoBuf.inputEnv
      testCtx 0 twoBufRec (by decide)).2.1,
   (c6_input_iteration_behavior.1 testAvctx testFrame 6 (by decide) envTwoBuf.inputEnv
      testCtx 0 twoBufRec (by decide)).2.2.1⟩

/-- Counterexample for C6 as stated: with a 2x2 frame (6 bytes), frame_size
6 and capacity-4 input buffers, the two iterations declare sizes 4 and 2
(the `FFMIN`) but each copies 6 bytes — the bytes copied are not
`min(frame_size - offset, capacity)`. -/
theorem c6_cex_fixed_byte_copy :
    (ff_mediacodec_enc_encode envTwoBuf testAvctx testCtx testPkt testFrame 0 6).submitTrace.map
        (fun t => (t.declaredSize, (t.payload.length : Int))) = [(4, 6), (2, 6)] ∧
    ∃ t ∈ (ff_mediacodec_enc_encode envTwoBuf testAvctx testCtx testPkt testFrame 0
        6).submitTrace,
      (t.payload.length : Int) ≠ min ((6 : Int) - t.offsetBefore) (t.capacity : Int) := by
  decide

/-- C7 (amended): an encode call with the end-of-stream marker
(frame_size = 0) whose first input-buffer acquisition and submission
succeed submits exactly one empty end-of-stream-flagged buffer, makes
exactly one input-buffer request, terminates the loop, and leaves the
session state untouched — regardless of how many further environment
entries would have been available. -/
theorem c7_eos_single_submission (e : InIterEnv) (rest : List InIterEnv)
    (avctx : AVCodecContext) (frame : AVFrame) (s : MediaCodecEncContext) (cap : Nat)
    (h0 : 0 ≤ e.deqIndex) (hb : e.inputBuf = some cap) (hq : 0 ≤ e.queueStatus) :
    (inputLoop avctx frame 0 (e :: rest) s 0).trace =
      [{ index := e.deqIndex, offsetBefore := 0, offsetAfter := 0, capacity := cap,
         declaredSize := 0, payload := [], ptsUs := 0, eos := true }] ∧
    (inputLoop avctx frame 0 (e :: rest) s 0).requests = 1 ∧
    (inputLoop avctx frame 0 (e :: rest) s 0).exit = .done ∧
    (inputLoop avctx frame 0 (e :: rest) s 0).s = s := by
  have hta : infoTryAgainLater e.deqIndex = false := by
    simp [infoTryAgainLater, INFO_TRY_AGAIN_LATER]
    omega
  unfold inputLoop
  simp [hb, hta, not_lt.mpr h0, not_lt.mpr hq]

/-- Witness for C7 at the concrete successful acquisition `inOk`. -/
theorem c7_eos_single_submission_witness :
    (inputLoop testAvctx testFrame 0 [inOk] testCtx 0).trace =
      [{ index := 0, offsetBefore := 0, offsetAfter := 0, capacity := 10,
         declaredSize := 0, payload := [], ptsUs := 0, eos := true }] ∧
    (inputLoop testAvctx testFrame 0 [inOk] testCtx 0).requests = 1 :=
  ⟨(c7_eos_single_submission inOk [] testAvctx testFrame testCtx 10 (by decide) rfl
      (by decide)).1,
   (c7_eos_single_submission inOk [] testAvctx testFrame testCtx 10 (by decide) rfl
      (by decide)).2.1⟩

/-- Counterexample for C7 as stated: an end-of-stream call whose input
dequeue times out returns successfully with zero submissions, not exactly
one. -/
theorem c7_cex_try_again_no_submission :
    (ff_mediacodec_enc_encode envTryAgainIn testAvctx testCtx testPkt testFrame 0
        0).submitTrace = [] ∧
    (ff_mediacodec_enc_encode envTryAgainIn testAvctx testCtx testPkt testFrame 0
        0).inRequests = 1 ∧
    (ff_mediacodec_enc_encode envTryAgainIn testAvctx testCtx testPkt testFrame 0
        0).ret = 0 := by
  decide

/-- C10: the caller's `*got_packet` value is overwritten (with 1) exactly
when the call reaches the real-payload outcome — output dequeue succeeded,
the buffer resolved, packet allocation succeeded, the payload size is
strictly positive and the configuration flag is clear; on every other
outcome the caller's stored value is returned unchanged. -/
theorem c10_got_packet_write (env : CallEnv) (avctx : AVCodecContext)
    (s : MediaCodecEncContext) (pkt : AVPacket) (frame : AVFrame) (gp fs : Int) :
    ((ff_mediacodec_enc_encode env avctx s pkt frame gp fs).realPayload = false →
      (ff_mediacodec_enc_encode env avctx s pkt frame gp fs).gotPacket = gp) ∧
    ((ff_mediacodec_enc_encode env avctx s pkt frame gp fs).realPayload = true →
      (ff_mediacodec_enc_encode env avctx s pkt frame gp fs).gotPacket = 1) ∧
    ((ff_mediacodec_enc_encode env avctx s pkt frame gp fs).realPayload = true ↔
      ((ff_mediacodec_enc_encode env avctx s pkt frame gp fs).inExit = .done ∧
       0 ≤ env.outEnv.deqIndex ∧ env.outEnv.outputBuf.isSome = true ∧
       env.outEnv.allocPacketStatus = 0 ∧ 0 < env.outEnv.info.size ∧
       env.outEnv.info.flags.codecConfig = false)) := by
  have hgp := encode_gotPacket env avctx s pkt frame gp fs
  have hrp := encode_realPayload env avctx s pkt frame gp fs
  refine ⟨fun h => by rw [hgp, h]; simp, fun h => by rw [hgp, h]; simp, ?_⟩
  constructor
  · intro h
    rw [h] at hrp
    have hc := hrp.symm
    simp only [Bool.and_eq_true, decide_eq_true_eq, beq_iff_eq, Option.isSome_iff_exists,
      Bool.not_eq_true'] at hc
    obtain ⟨⟨⟨⟨⟨hd, hi⟩, hb⟩, ha⟩, hs⟩, hcf⟩ := hc
    refine ⟨hd, hi, ?_, ha, hs, hcf⟩
    obtain ⟨x, hx⟩ := hb
    simp [hx]
  · intro hall
    obtain ⟨hd, hi, hb, ha, hs, hcf⟩ := hall
    rw [hrp]
    simp [hd, hi, hb, ha, hs, hcf]

/-- Witness for C10: the payload-drain call writes `*got_packet = 1`. -/
theorem c10_got_packet_write_witness :
    (ff_mediacodec_enc_encode payCall.env testAvctx testCtx testPkt testFrame 0
        6).realPayload = true ∧
    (ff_mediacodec_enc_encode payCall.env testAvctx testCtx testPkt testFrame 0
        6).gotPacket = 1 := by
  have h := (c10_got_packet_write payCall.env testAvctx testCtx testPkt testFrame 0 6).2.1
  have hrp : (ff_mediacodec_enc_encode payCall.env testAvctx testCtx testPkt testFrame 0
      6).realPayload = true := by decide
  exact ⟨hrp, h hrp⟩
